import Mathlib

/-!
Verification of the `date-header` Web Cache Deception detection tool.

This file shallowly embeds the two source files of the repository:

* `cache_identification.py` — the `CacheIdentification` provider
  fingerprinter (keyword table, denylist, `identify`), and
* `date_header.py` — the per-URL detection protocol driven by `main`
  (initial fetch, MISS confirmation, DateProbe, TemporalCheck,
  CacheBustProbe) together with the `statistics` dictionary and the
  run-wide error list.

External collaborators (the `wcde` classifier, the `crawler` browser and
queue, the `cache_buster` transform) are not part of the sources; the
model is parametric in the classifier and supplies the responses of the
successive fetches of one URL as an explicit script.  Python dictionaries
are modelled as insertion-ordered association lists.
-/

set_option autoImplicit false

namespace WCD

/-! ## String helpers

Python string operations used by the sources: `str.lower()` and the
substring test `a in b`.  Characters are handled as lists so the
containment test is a plain structural recursion.
-/

/-- Lower-cased character list of a string (Python `s.lower()`;
the keyword table is pure ASCII, where `Char.toLower` agrees). -/
def lc (s : String) : List Char := s.toList.map Char.toLower

/-- `leadsWith pat l` is true iff `pat` is an initial segment of `l`. -/
def leadsWith : List Char → List Char → Bool
  | [], _ => true
  | _ :: _, [] => false
  | a :: as, b :: bs => a == b && leadsWith as bs

/-- `hasSub pat l` is true iff `pat` occurs contiguously inside `l`. -/
def hasSub (pat : List Char) : List Char → Bool
  | [] => leadsWith pat []
  | c :: t => leadsWith pat (c :: t) || hasSub pat t

/-- Case-insensitive substring test: Python `pat.lower() in s.lower()`. -/
def substrCI (pat s : String) : Bool := hasSub (lc pat) (lc s)

/-! ## Header collections

`requests` exposes response headers as a case-insensitive mapping whose
`items()` iteration preserves the stored (original-case) names.  The
model is an ordered list of name/value pairs with case-insensitive
lookup.
-/

/-- A response header collection: ordered name/value pairs. -/
abbrev Headers := List (String × String)

/-- Case-insensitive lookup, as in `requests`' `CaseInsensitiveDict`
(`headers['Date']`, `'Date' in headers`). -/
def getHeader (hs : Headers) (k : String) : Option String :=
  (hs.find? (fun p => lc p.1 == lc k)).map (fun p => p.2)

/-! ## `cache_identification.py` — `CacheIdentification` -/

/-- The `KEYWORDS` table of `CacheIdentification`, in source order:
provider name, name substrings, value substrings. -/
def KEYWORDS : List (String × List String × List String) :=
  [ ("akamai", ["x-akamai-"],
      ["akamai", "akamaitechnologies", "akamaiedge", "AkamaiGHost"]),
    ("cdn77", ["x-cdn77", "x-77"], ["cdn77"]),
    ("cloudflare", ["cf-cache-status", "cf-ray", "cf-request-id"],
      ["cloudflare"]),
    ("cloudfront", ["x-amz-cf-pop", "x-amz-cf-id", "x-amz-"],
      ["cloudfront", "cloudfront.net"]),
    ("fastly", [], ["fastly"]),
    ("google", ["x-google-", "x-goog-"], ["1.1 google"]),
    ("keycdn", [], ["keycdn"]),
    ("azure", ["x-msedge-"], ["azure"]),
    ("apache, ats", [], ["apache", "ATS/"]),
    ("nginx", ["x-nginx"], ["nginx"]),
    ("rack_cache", ["x-rack-cache"], ["rack-cache"]),
    ("squid", [], ["squid"]),
    ("varnish", ["x-varnish"], ["varnish"]) ]

/-- `DENYLIST['name']` of `CacheIdentification`. -/
def DENYLIST_name : List String :=
  [ "content-security-policy",
    "content-security-policy-report-only",
    "access-control-allow-origin" ]

/-- `DENYLIST['value']` of `CacheIdentification` (empty in the source). -/
def DENYLIST_value : List String := []

/-- One iteration of the inner provider loop of `identify`
(lines 153–157): conditionally append the provider for a name match,
then conditionally append it again for a value match. -/
def kwStep (h : String × String) (acc : List String)
    (pk : String × List String × List String) : List String :=
  let acc2 := if pk.2.1.any (fun kw => substrCI kw h.1) then acc ++ [pk.1] else acc
  if pk.2.2.any (fun kw => substrCI kw h.2) then acc2 ++ [pk.1] else acc2

/-- One iteration of the outer header loop of `identify`
(lines 147–157): the two denylist `continue` guards, then the provider
loop.  NOTE both guards are exact (case-sensitive) membership tests,
`name in self.DENYLIST['name']` and `value in self.DENYLIST['value']`. -/
def identifyStep (providers : List String) (h : String × String) : List String :=
  if DENYLIST_name.contains h.1 then providers
  else if DENYLIST_value.contains h.2 then providers
  else KEYWORDS.foldl (kwStep h) providers

/-- The `providers` list accumulated by `identify` before the final
`list(set(providers))` deduplication. -/
def identifyRaw (headers : Headers) : List String :=
  headers.foldl identifyStep []

/-- `CacheIdentification.identify`.  Python returns
`list(set(providers))`, whose element order is unspecified; the model
deduplicates keeping first occurrences, which has the same membership. -/
def identify (headers : Headers) : List String :=
  (identifyRaw headers).dedup

/-! ## `date_header.py` — data model of the run state

The `statistics` dictionary (lines 170–173, 317–320, 345, 349, 364,
390, 241–249) and the per-URL entries `statistics['URLs'][url]`.
Python dictionaries are modelled as insertion-ordered association
lists; a per-URL entry maps string keys to string / string-list /
boolean values.
-/

/-- A value stored in a per-URL statistics entry. -/
inductive StatVal where
  | str (s : String)
  | strList (l : List String)
  | bool (b : Bool)
deriving DecidableEq

/-- Dictionary assignment `m[k] = v` on an ordered association list:
an existing key keeps its position, a new key is appended. -/
def setAssoc {α : Type} : List (String × α) → String → α → List (String × α)
  | [], k, v => [(k, v)]
  | (k0, v0) :: t, k, v =>
      if k0 == k then (k0, v) :: t else (k0, v0) :: setAssoc t k v

/-- `statistics['URLs'][url]['date'].append(d)`: append `d` to the
string list stored under the `date` key. -/
def appendDate (entry : List (String × StatVal)) (d : String) :
    List (String × StatVal) :=
  entry.map fun kv =>
    if kv.1 == "date" then
      match kv.2 with
      | StatVal.strList ds => (kv.1, StatVal.strList (ds ++ [d]))
      | v => (kv.1, v)
    else kv

/-- A structured entry of `statistics['errors']` (lines 244–249 and
406–411); the `traceback` field, a formatting artefact, is omitted. -/
structure ErrorRecord where
  url : String
  type : String
  error : String
deriving DecidableEq

/-- The `statistics` dictionary as initialized in lines 170–173 plus
its `errors` list (created on demand in the source, initially absent =
empty). -/
structure Stats where
  site : String
  cache_headers : Bool
  tested : Bool
  URLs : List (String × List (String × StatVal))
  errors : List ErrorRecord
deriving DecidableEq

/-- Lines 170–173: `statistics` right after initialization. -/
def initStats (site : String) : Stats :=
  { site := site, cache_headers := false, tested := false,
    URLs := [], errors := [] }

/-- Append a structured error record (lines 241–249 / 404–411). -/
def addError (st : Stats) (url etype msg : String) : Stats :=
  { st with errors := st.errors ++ [{ url := url, type := etype, error := msg }] }

/-- `statistics['URLs'][url] = entry`. -/
def commitUrl (st : Stats) (url : String) (entry : List (String × StatVal)) :
    Stats :=
  { st with URLs := setAssoc st.URLs url entry }

/-! ## `date_header.py` — fetch outcomes and the per-URL script

The underlying HTTP transport is an external collaborator; each fetch of
the protocol either returns a `Response` or raises one of the transport
exceptions caught in line 239.  A `UrlScript` supplies the responses the
network would give to the successive fetches the protocol can make for
one URL.
-/

/-- The transport exception classes caught at line 239. -/
inductive TransportKind where
  | sslError
  | connectionError
  | readTimeout
  | tooManyRedirects
  | chunkedEncodingError
  | invalidHeader
deriving DecidableEq

/-- The Python class name `type(e).__name__` of a transport error. -/
def TransportKind.pyName : TransportKind → String
  | .sslError => "SSLError"
  | .connectionError => "ConnectionError"
  | .readTimeout => "ReadTimeout"
  | .tooManyRedirects => "TooManyRedirects"
  | .chunkedEncodingError => "ChunkedEncodingError"
  | .invalidHeader => "InvalidHeader"

/-- A raised transport exception: its class and its message `str(e)`. -/
structure TransportErr where
  kind : TransportKind
  msg : String
deriving DecidableEq

/-- An HTTP response as exposed by the client: final URL after
redirects, status code, response headers. -/
structure Response where
  url : String
  status_code : Nat
  headers : Headers
deriving DecidableEq

/-- Outcome of one `browser.get`: a response, or a transport
exception. -/
inductive FetchOutcome where
  | fail (e : TransportErr)
  | ok (r : Response)
deriving DecidableEq

/-- The responses the network gives to the successive fetches of one
URL: the initial GET (line 238), the two MISS-confirmation fetches
(lines 287 and 289 — the first is discarded, `response2` is
overwritten), the TemporalCheck re-fetch (line 353), and the
cache-busted fetch (line 379).  Only the initial GET is wrapped in the
transport `try`/`except`; later fetches are modelled as succeeding. -/
structure UrlScript where
  fetch1 : FetchOutcome
  confirmA : Response
  confirmB : Response
  temporal : Response
  bust : Response
deriving DecidableEq

/-- Observable actions of the protocol, in order: a GET of the URL, the
cache-busted GET (line 379; the busted request itself is built by the
external `CacheBuster`), an `add_to_visited` call, and a `time.sleep`
(duration in milliseconds). -/
inductive Event where
  | get (url : String)
  | getBust (url : String)
  | addVisited (url : String)
  | sleepMs (ms : Nat)
deriving DecidableEq

/-- Result of processing one URL of the queue: the updated
`statistics`, the emitted event trace, the two logged comparison
outcomes, and whether the loop `break` at line 397 was reached
(`broke = false` means the `while` loop continues with the next URL). -/
structure StepResult where
  stats : Stats
  events : List Event
  temporalChanging : Option Bool
  bustChanging : Option Bool
  broke : Bool
deriving DecidableEq

/-! ## `date_header.py` — the per-URL protocol (lines 236–397)

The classifier `wcde.cache_headers_heuristics` lives outside the
sources; the model is parametric in a function
`classify : Headers → String` returning a verdict string
(`"HIT"`, `"MISS"`, or the `'-'` sentinel for UNKNOWN).
-/

/-- The keys written to `network[url]` before line 323 is reached:
`request1` (line 264) always, plus `request2` (line 291) when the MISS
confirmation path ran.  No other key exists at that point (`first`,
`second`, `third` are written later, and `network` starts as a fresh
empty dictionary each run). -/
def networkKeys (usedConfirm : Option Response) : List String :=
  match usedConfirm with
  | some _ => ["request1", "request2"]
  | none => ["request1"]

/-- Lines 323–340: the `response_headers` selection.  The guard tests
`'response2' in network[url]`, but line 291 stores the confirmation
round under the key `request2`, so the guard is ALWAYS false and
`response_headers` is the FIRST response's headers in every path — also
when the MISS confirmation path ran.  The true branch (lines 324–331,
which would use the confirmation response, held in the variable
`response2`) is dead code. -/
def entryHeaders (response : Response) (usedConfirm : Option Response) : Headers :=
  if (networkKeys usedConfirm).contains "response2" then
    match usedConfirm with
    | some r2 => r2.headers
    | none => response.headers
  else response.headers

/-- Lines 314–397: the code run once the URL is known to get cached.
`response` is the initial response, `usedConfirm` the confirmation
response when the MISS path was taken, `finalStatus` the `cache_status`
stored in the entry (line 318), `ev` the events emitted so far.

Control flow mirrored from the source:
* line 317–320: commit the partial entry `{cache_status, date: []}`;
* line 342: require a `Date` header on `response_headers` (which is
  always the first response's headers, see `entryHeaders`), else fall
  through to the `break` (line 397);
* lines 344–349: fingerprint the cache, record the baseline `Date`;
* lines 352–364: sleep 1.5 s, re-fetch, record the second `Date` when
  present (else fall through to the `break`);
* line 366: compare `response.headers['Date']` to the re-fetched
  `Date`; this is a separate dictionary access, so it is modelled as
  its own lookup (a missing key would surface as a `KeyError` caught by
  the outer handler, lines 401–411, skipping the `break`), but since
  `response_headers` IS `response.headers` the line-342 guard makes
  that branch unreachable;
* lines 372–395: sleep 1.5 s, issue the cache-busted fetch, record its
  `Date` when present and compare it to `response_headers['Date']`. -/
def afterCached (sc : UrlScript) (url : String) (response : Response)
    (usedConfirm : Option Response) (finalStatus : String)
    (st : Stats) (ev : List Event) : StepResult :=
  let entry : List (String × StatVal) :=
    [("cache_status", StatVal.str finalStatus), ("date", StatVal.strList [])]
  let response_headers := entryHeaders response usedConfirm
  match getHeader response_headers "Date" with
  | none =>
      { stats := commitUrl st url entry, events := ev,
        temporalChanging := none, bustChanging := none, broke := true }
  | some d1 =>
      let cache := identify response_headers
      let entry := setAssoc entry "cache" (StatVal.strList cache)
      let entry := appendDate entry d1
      let ev := ev ++ [Event.sleepMs 1500, Event.get url]
      let response2 := sc.temporal
      match getHeader response2.headers "Date" with
      | none =>
          { stats := commitUrl st url entry, events := ev,
            temporalChanging := none, bustChanging := none, broke := true }
      | some d2 =>
          let entry := appendDate entry d2
          match getHeader response.headers "Date" with
          | none =>
              { stats := addError (commitUrl st url entry) url "KeyError" "Date",
                events := ev, temporalChanging := none, bustChanging := none,
                broke := false }
          | some dFirst =>
              let tChanging := dFirst != d2
              let ev := ev ++ [Event.sleepMs 1500, Event.getBust url]
              let response3 := sc.bust
              match getHeader response3.headers "Date" with
              | none =>
                  { stats := commitUrl st url entry, events := ev,
                    temporalChanging := some tChanging, bustChanging := none,
                    broke := true }
              | some d3 =>
                  let entry := appendDate entry d3
                  { stats := commitUrl st url entry, events := ev,
                    temporalChanging := some tChanging,
                    bustChanging := some (d1 != d3), broke := true }

/-- Lines 236–397: the body of the `while` loop for one dequeued URL
(after the visited/exclusion guards).  Link extraction (lines 252–255)
feeds the external crawler queue and the `network` trace dictionary is
not modelled; neither influences `statistics` or the protocol.

* lines 238–250: initial GET; on a transport exception append a
  structured error and continue with the next URL;
* lines 257–261: `add_to_visited(url)` AFTER the GET returned; when the
  response's final URL differs, switch to it and mark it visited too;
* lines 274–277: classify; on a verdict other than `'-'` set the
  site-wide `cache_headers` flag;
* lines 280–312: `HIT` proceeds directly; `MISS` sleeps 1 s, re-fetches,
  sleeps 2 s, re-fetches (overwriting the first confirmation), and
  classifies only the second confirmation, proceeding only on `HIT`;
  any other verdict abandons the URL. -/
def processUrl (classify : Headers → String) (sc : UrlScript)
    (url0 : String) (st : Stats) : StepResult :=
  match sc.fetch1 with
  | .fail e =>
      { stats := addError st url0 e.kind.pyName e.msg,
        events := [Event.get url0],
        temporalChanging := none, bustChanging := none, broke := false }
  | .ok response =>
      let ev0 := [Event.get url0, Event.addVisited url0]
      let url := if response.url != url0 then response.url else url0
      let ev := if response.url != url0
        then ev0 ++ [Event.addVisited response.url] else ev0
      let cache_status := classify response.headers
      let st := if cache_status != "-"
        then { st with cache_headers := true } else st
      if cache_status == "HIT" then
        afterCached sc url response none cache_status st ev
      else if cache_status == "MISS" then
        let ev := ev ++ [Event.sleepMs 1000, Event.get url,
                         Event.sleepMs 2000, Event.get url]
        let response2 := sc.confirmB
        let cache_status2 := classify response2.headers
        let st := if cache_status2 != "-"
          then { st with cache_headers := true } else st
        if cache_status2 == "HIT" then
          afterCached sc url response (some response2) cache_status2 st ev
        else
          { stats := st, events := ev,
            temporalChanging := none, bustChanging := none, broke := false }
      else
        { stats := st, events := ev,
          temporalChanging := none, bustChanging := none, broke := false }

/-- The `while crawler.should_continue()` loop (lines 216–411), with
the queue supplied as an explicit list of URL/script pairs: a `break`
(line 397) stops the run, otherwise processing continues with the next
queued URL. -/
def runLoop (classify : Headers → String) :
    List (String × UrlScript) → Stats → Stats
  | [], st => st
  | (url, sc) :: rest, st =>
      let r := processUrl classify sc url st
      if r.broke then r.stats else runLoop classify rest r.stats

/-- The verdicts of the classifications `main` performs while
processing one URL: the first classification (line 275), and — only
when it returned `MISS` — the classification of the second confirmation
response (line 299). -/
def verdictsOf (classify : Headers → String) (sc : UrlScript) : List String :=
  match sc.fetch1 with
  | .fail _ => []
  | .ok r =>
      classify r.headers ::
        (if classify r.headers == "MISS"
         then [classify sc.confirmB.headers] else [])

/-- True iff some value of a per-URL statistics entry is the boolean
`true`. -/
def hasBoolTrue (entry : List (String × StatVal)) : Bool :=
  entry.any fun kv => kv.2 == StatVal.bool true

/-- True iff the event is the cache-busted fetch. -/
def isBust : Event → Bool
  | .getBust _ => true
  | _ => false

/-- True iff an `addVisited u` occurs strictly before the first
`get u` of the trace (the ordering the specification asserts). -/
def addVisitedBeforeFirstGet (t : List Event) (u : String) : Bool :=
  match t.findIdx? (fun e => e == Event.addVisited u),
        t.findIdx? (fun e => e == Event.get u) with
  | some i, some j => decide (i < j)
  | some _, none => true
  | none, some _ => false
  | none, none => true

/-- A concrete classifier instance, used to evaluate the orchestrator
model on closed inputs: the verdict is the value of an `x-cache` header
when present, the `'-'` sentinel otherwise. -/
def classifyX (hs : Headers) : String :=
  (getHeader hs "x-cache").getD "-"

/-- A concrete 200 response. -/
def respOf (u : String) (hs : Headers) : Response :=
  { url := u, status_code := 200, headers := hs }

/-! ### Concrete scripts used by the closed theorems -/

/-- URL of the end-to-end scenario-C run. -/
def urlC : String := "https://example.com/"

/-- Scenario C of the specification: first fetch classifies `HIT` with
`Date` D1, the TemporalCheck re-fetch still carries D1, the cache-busted
fetch carries D2 ≠ D1. -/
def scriptC : UrlScript :=
  { fetch1 := .ok (respOf urlC [("x-cache", "HIT"), ("Date", "D1")]),
    confirmA := respOf urlC [],
    confirmB := respOf urlC [],
    temporal := respOf urlC [("Date", "D1")],
    bust := respOf urlC [("Date", "D2")] }

/-- URL of the MISS-path runs. -/
def urlB : String := "https://example.com/b"

/-- A MISS-path run: the first fetch classifies `MISS` and carries
`Date` A; the second confirmation fetch classifies `HIT` and carries
`Date` B; the TemporalCheck re-fetch and the cache-busted fetch both
carry `Date` B.  (The DateProbe baseline actually recorded is the
FIRST response's `Date` "A", since the line-323 guard never fires.) -/
def scriptB : UrlScript :=
  { fetch1 := .ok (respOf urlB [("x-cache", "MISS"), ("Date", "A")]),
    confirmA := respOf urlB [],
    confirmB := respOf urlB [("x-cache", "HIT"), ("Date", "B")],
    temporal := respOf urlB [("Date", "B")],
    bust := respOf urlB [("Date", "B")] }

/-- A MISS-path run whose FIRST response has no `Date` header at all,
while the confirmation and TemporalCheck responses do. -/
def scriptB2 : UrlScript :=
  { fetch1 := .ok (respOf urlB [("x-cache", "MISS")]),
    confirmA := respOf urlB [],
    confirmB := respOf urlB [("x-cache", "HIT"), ("Date", "B")],
    temporal := respOf urlB [("Date", "B")],
    bust := respOf urlB [("Date", "B")] }

/-- URL of the no-`Date` run. -/
def urlD : String := "https://example.com/d"

/-- A run whose first fetch classifies `HIT` but carries no `Date`
header: DateProbe is abandoned at the line-342 guard. -/
def scriptD : UrlScript :=
  { fetch1 := .ok (respOf urlD [("x-cache", "HIT")]),
    confirmA := respOf urlD [],
    confirmB := respOf urlD [],
    temporal := respOf urlD [],
    bust := respOf urlD [] }

/-- A MISS-confirmation run whose first fetch carries `Date` D1, whose
confirmation fetch classifies `HIT` (with `Date` DB), and whose
TemporalCheck re-fetch carries no `Date` header. -/
def scriptG : UrlScript :=
  { fetch1 := .ok (respOf urlD [("x-cache", "MISS"), ("Date", "D1")]),
    confirmA := respOf urlD [],
    confirmB := respOf urlD [("x-cache", "HIT"), ("Date", "DB")],
    temporal := respOf urlD [],
    bust := respOf urlD [("Date", "D9")] }

/-- A run whose initial GET raises a read timeout. -/
def scriptE : UrlScript :=
  { fetch1 := .fail { kind := TransportKind.readTimeout, msg := "timed out" },
    confirmA := respOf urlD [],
    confirmB := respOf urlD [],
    temporal := respOf urlD [],
    bust := respOf urlD [] }

/-! ## Helper lemmas on the fingerprinter -/

/-- `kwStep` only appends: it preserves membership of the accumulator. -/
theorem mem_kwStep (h : String × String) (acc : List String)
    (pk : String × List String × List String) (x : String) (hx : x ∈ acc) :
    x ∈ kwStep h acc pk := by
  unfold kwStep
  dsimp only
  split <;> split <;> simp [hx]

/-- A provider whose name- or value-substrings match the header is
appended by its own `kwStep` iteration. -/
theorem kwStep_adds (h : String × String) (acc : List String)
    (pk : String × List String × List String)
    (hm : (pk.2.1.any (fun kw => substrCI kw h.1) ||
           pk.2.2.any (fun kw => substrCI kw h.2)) = true) :
    pk.1 ∈ kwStep h acc pk := by
  unfold kwStep
  dsimp only
  cases hA : pk.2.1.any (fun kw => substrCI kw h.1)
  · cases hB : pk.2.2.any (fun kw => substrCI kw h.2)
    · rw [hA, hB] at hm
      exact absurd hm (by simp)
    · simp [hA, hB]
  · cases hB : pk.2.2.any (fun kw => substrCI kw h.2)
    · simp [hA, hB]
    · simp [hA, hB]

/-- A left fold whose step only grows the accumulator preserves
membership. -/
theorem mem_foldl_init {α : Type} (f : List String → α → List String)
    (hf : ∀ acc a x, x ∈ acc → x ∈ f acc a) (l : List α) :
    ∀ (acc : List String) (x : String), x ∈ acc → x ∈ l.foldl f acc := by
  induction l with
  | nil => intro acc x hx; simpa using hx
  | cons a t ih =>
      intro acc x hx
      rw [List.foldl_cons]
      exact ih (f acc a) x (hf acc a x hx)

/-- If some element of the folded list is guaranteed to put `x` into
the accumulator, and the step preserves membership, then `x` is in the
fold. -/
theorem mem_foldl_of_elem {α : Type} (f : List String → α → List String)
    (hf : ∀ acc a x, x ∈ acc → x ∈ f acc a) (x : String) (a : α)
    (ha : ∀ acc, x ∈ f acc a) (l : List α) (hl : a ∈ l) :
    ∀ acc, x ∈ l.foldl f acc := by
  induction l with
  | nil => cases hl
  | cons b t ih =>
      intro acc
      rw [List.foldl_cons]
      rcases List.mem_cons.mp hl with hb | ht
      · subst hb
        exact mem_foldl_init f hf t (f acc a) x (ha acc)
      · exact ih ht (f acc b)

/-- `identifyStep` preserves membership of the accumulator. -/
theorem mem_identifyStep (acc : List String) (h : String × String)
    (x : String) (hx : x ∈ acc) : x ∈ identifyStep acc h := by
  unfold identifyStep
  split
  · exact hx
  · split
    · exact hx
    · exact mem_foldl_init (kwStep h)
        (fun a p y hy => mem_kwStep h a p y hy) KEYWORDS acc x hx

/-- A denylisted header name makes `identifyStep` a no-op. -/
theorem identifyStep_denylisted (acc : List String) (h : String × String)
    (hd : DENYLIST_name.contains h.1 = true) : identifyStep acc h = acc := by
  have hmem : h.1 ∈ DENYLIST_name := by simpa using hd
  simp [identifyStep, hmem]

/-- A non-denylisted header puts every matching provider of the table
into `identifyStep`'s result. -/
theorem identifyStep_adds (acc : List String) (h : String × String)
    (pk : String × List String × List String)
    (hd : DENYLIST_name.contains h.1 = false)
    (hk : pk ∈ KEYWORDS)
    (hm : (pk.2.1.any (fun kw => substrCI kw h.1) ||
           pk.2.2.any (fun kw => substrCI kw h.2)) = true) :
    pk.1 ∈ identifyStep acc h := by
  unfold identifyStep
  rw [if_neg (by simpa using hd), if_neg (by simp [DENYLIST_value])]
  exact mem_foldl_of_elem (kwStep h)
    (fun a p y hy => mem_kwStep h a p y hy) pk.1 pk
    (fun a => kwStep_adds h a pk hm) KEYWORDS hk acc

/-! ## Claims C3 and C4 — the provider fingerprinter -/

/-- C3 counterexample: the denylist lookup is case-SENSITIVE, so the
customarily-capitalised spelling of the denylisted name
`access-control-allow-origin` is not excluded, and its
`https://cloudflare-proxy.example` value does attribute `cloudflare`;
only the exact lowercase spelling is excluded. -/
theorem c3_counterexample :
    identify [("Access-Control-Allow-Origin",
               "https://cloudflare-proxy.example")] = ["cloudflare"] ∧
    identify [("access-control-allow-origin",
               "https://cloudflare-proxy.example")] = [] := by
  constructor
  · decide
  · decide

/-- C3 (amended): `identify` excludes a header from matching entirely
when its name is EXACTLY (case-sensitively) one of the denylist
strings: deleting such a header from the collection does not change the
result, so it attributes no provider regardless of its value. -/
theorem c3_denylist_exact (hs1 hs2 : Headers) (name value : String)
    (hd : DENYLIST_name.contains name = true) :
    identify (hs1 ++ (name, value) :: hs2) = identify (hs1 ++ hs2) := by
  unfold identify identifyRaw
  rw [List.foldl_append, List.foldl_append, List.foldl_cons,
    identifyStep_denylisted (List.foldl identifyStep [] hs1) (name, value) hd]

/-- C3 witness: the amended theorem applied to the specification's own
example header, alone in the collection. -/
theorem c3_witness :
    identify [("access-control-allow-origin",
               "https://cloudflare-proxy.example")] = identify [] :=
  c3_denylist_exact [] []
    "access-control-allow-origin" "https://cloudflare-proxy.example"
    (by decide)

/-- C4 (confirmed): for every header collection, every header in it
whose name is not denylisted, and every provider of the keyword table,
a case-insensitive name-substring or value-substring match puts the
provider into `identify`'s result. -/
theorem c4_keyword_matching (hs : Headers) (name value P : String)
    (nks vks : List String)
    (hmem : (name, value) ∈ hs)
    (hd : DENYLIST_name.contains name = false)
    (hk : (P, nks, vks) ∈ KEYWORDS)
    (hm : (nks.any (fun kw => substrCI kw name) ||
           vks.any (fun kw => substrCI kw value)) = true) :
    P ∈ identify hs := by
  unfold identify
  rw [List.mem_dedup]
  unfold identifyRaw
  exact mem_foldl_of_elem identifyStep
    (fun acc h x hx => mem_identifyStep acc h x hx)
    P (name, value)
    (fun acc => identifyStep_adds acc (name, value) (P, nks, vks) hd hk hm)
    hs hmem []

/-- C4 witness: scenario A's `cf-cache-status` header (sent with the
customary capitalisation) attributes `cloudflare` by a name-substring
match. -/
theorem c4_witness :
    "cloudflare" ∈ identify [("CF-Cache-Status", "HIT"),
                             ("date", "Mon, 01 Jan 2024 00:00:00 GMT")] :=
  c4_keyword_matching
    [("CF-Cache-Status", "HIT"), ("date", "Mon, 01 Jan 2024 00:00:00 GMT")]
    "CF-Cache-Status" "HIT" "cloudflare"
    ["cf-cache-status", "cf-ray", "cf-request-id"] ["cloudflare"]
    (by decide) (by decide) (by decide) (by decide)

/-! ## Helper lemmas on the orchestrator -/

/-- The line-323 guard never fires (`response2` is never a key of
`network[url]`): `response_headers` is always the first response's
headers, in the HIT path and in the MISS-confirmation path alike. -/
theorem entryHeaders_eq_first (response : Response)
    (usedConfirm : Option Response) :
    entryHeaders response usedConfirm = response.headers := by
  cases usedConfirm <;> rfl

/-- `afterCached` never touches the site-wide `cache_headers` flag. -/
theorem afterCached_cache_headers (sc : UrlScript) (url : String)
    (response : Response) (usedConfirm : Option Response) (fs : String)
    (st : Stats) (ev : List Event) :
    (afterCached sc url response usedConfirm fs st ev).stats.cache_headers =
      st.cache_headers := by
  unfold afterCached
  dsimp only
  repeat' split
  all_goals rfl

/-- `afterCached` only appends to the event trace it is given. -/
theorem afterCached_events_append (sc : UrlScript) (url : String)
    (response : Response) (usedConfirm : Option Response) (fs : String)
    (st : Stats) (ev : List Event) :
    ∃ tail, (afterCached sc url response usedConfirm fs st ev).events =
      ev ++ tail := by
  unfold afterCached
  dsimp only
  repeat' split
  all_goals first
    | exact ⟨[], (List.append_nil ev).symm⟩
    | exact ⟨_, rfl⟩
    | exact ⟨_, (List.append_assoc _ _ _)⟩

/-- When `afterCached` is entered with at least two already-emitted
events, those events remain the head of the trace. -/
theorem afterCached_events_take2 (sc : UrlScript) (url : String)
    (response : Response) (usedConfirm : Option Response) (fs : String)
    (st : Stats) (a b : Event) (ev : List Event) :
    (afterCached sc url response usedConfirm fs st (a :: b :: ev)).events.take 2 =
      [a, b] := by
  obtain ⟨t, ht⟩ :=
    afterCached_events_append sc url response usedConfirm fs st (a :: b :: ev)
  rw [ht]
  rfl

/-- When `afterCached` is entered with at least six already-emitted
events, those events remain the head of the trace. -/
theorem afterCached_events_take6 (sc : UrlScript) (url : String)
    (response : Response) (usedConfirm : Option Response) (fs : String)
    (st : Stats) (a b c d e f : Event) (ev : List Event) :
    (afterCached sc url response usedConfirm fs st
        (a :: b :: c :: d :: e :: f :: ev)).events.take 6 =
      [a, b, c, d, e, f] := by
  obtain ⟨t, ht⟩ :=
    afterCached_events_append sc url response usedConfirm fs st
      (a :: b :: c :: d :: e :: f :: ev)
  rw [ht]
  rfl

/-- When the initial GET succeeds, the event trace starts with that GET
followed immediately by the `add_to_visited` call. -/
theorem processUrl_events_take2 (classify : Headers → String)
    (sc : UrlScript) (url0 : String) (st : Stats) (r1 : Response)
    (hf : sc.fetch1 = FetchOutcome.ok r1) :
    (processUrl classify sc url0 st).events.take 2 =
      [Event.get url0, Event.addVisited url0] := by
  unfold processUrl
  rw [hf]
  dsimp only
  generalize (if (r1.url != url0) = true then r1.url else url0) = u
  obtain ⟨z, hz⟩ : ∃ z,
      (if (r1.url != url0) = true
        then [Event.get url0, Event.addVisited url0] ++ [Event.addVisited r1.url]
        else [Event.get url0, Event.addVisited url0]) =
      Event.get url0 :: Event.addVisited url0 :: z := by
    split
    · exact ⟨_, rfl⟩
    · exact ⟨_, rfl⟩
  rw [hz]
  split
  · exact afterCached_events_take2 sc u r1 none (classify r1.headers) _ _ _ _
  · split
    · simp only [List.cons_append]
      split
      · exact afterCached_events_take2 sc u r1 (some sc.confirmB)
          (classify sc.confirmB.headers) _ _ _ _
      · rfl
    · rfl

/-- The flag equation of one URL: afterwards, `cache_headers` is its
previous value or-ed with "some classification of this URL returned a
verdict other than the `'-'` sentinel". -/
theorem processUrl_cache_headers (classify : Headers → String)
    (sc : UrlScript) (url0 : String) (st : Stats) :
    (processUrl classify sc url0 st).stats.cache_headers =
      (st.cache_headers ||
        (verdictsOf classify sc).any (fun v => v != "-")) := by
  cases hf : sc.fetch1 with
  | fail e =>
      unfold processUrl verdictsOf
      rw [hf]
      simp [addError]
  | ok r =>
      unfold processUrl verdictsOf
      rw [hf]
      dsimp only
      cases hH : (classify r.headers == "HIT")
      · cases hM : (classify r.headers == "MISS")
        · simp only [hH, hM, Bool.false_eq_true, if_false]
          cases hD : (classify r.headers != "-") <;>
            simp [hD]
        · simp only [hH, hM, Bool.false_eq_true, if_false, if_true]
          have hMeq : classify r.headers = "MISS" := by
            simpa using hM
          have hD : (classify r.headers != "-") = true := by
            rw [hMeq]; decide
          cases h2 : (classify sc.confirmB.headers == "HIT")
          · simp only [h2, Bool.false_eq_true, if_false]
            cases hD2 : (classify sc.confirmB.headers != "-") <;>
              simp [hD, hD2]
          · simp only [h2, if_true]
            cases hD2 : (classify sc.confirmB.headers != "-")
            · rw [afterCached_cache_headers]
              simp [hD, hD2]
            · rw [afterCached_cache_headers]
              simp [hD, hD2]
      · have hHeq : classify r.headers = "HIT" := by
          simpa using hH
        have hD : (classify r.headers != "-") = true := by
          rw [hHeq]; decide
        have hM : (classify r.headers == "MISS") = false := by
          rw [hHeq]; decide
        simp only [hH, hM, if_true, Bool.false_eq_true, if_false]
        rw [afterCached_cache_headers]
        simp [hD, hM]

/-! ## Claims about the detection protocol -/

/-- C9 (confirmed): the site-wide `cache_headers` flag (initialized to
`false` in `initStats`) obeys, for every URL processed: afterwards it is
its previous value or-ed with "some classification of this URL returned
a verdict other than the `'-'` (UNKNOWN) sentinel" — so all-UNKNOWN
classifications never set it; and it is monotone over the whole run. -/
theorem c9_cache_headers_flag (classify : Headers → String) :
    (∀ (sc : UrlScript) (url0 : String) (st : Stats),
       (processUrl classify sc url0 st).stats.cache_headers =
         (st.cache_headers ||
           (verdictsOf classify sc).any (fun v => v != "-"))) ∧
    (∀ (scripts : List (String × UrlScript)) (st : Stats),
       st.cache_headers = true →
       (runLoop classify scripts st).cache_headers = true) := by
  constructor
  · exact fun sc url0 st => processUrl_cache_headers classify sc url0 st
  · intro scripts
    induction scripts with
    | nil =>
        intro st h
        simpa [runLoop] using h
    | cons p rest ih =>
        intro st h
        obtain ⟨url, sc⟩ := p
        have hflag : (processUrl classify sc url st).stats.cache_headers = true := by
          rw [processUrl_cache_headers, h, Bool.true_or]
        unfold runLoop
        dsimp only
        split
        · exact hflag
        · exact ih _ hflag

/-- C9 witness: the loop-monotonicity part applied to the empty queue
starting from a state whose flag is already set. -/
theorem c9_witness :
    (runLoop classifyX []
      { initStats "example.com" with cache_headers := true }).cache_headers
      = true :=
  (c9_cache_headers_flag classifyX).2 []
    { initStats "example.com" with cache_headers := true } rfl

/-- C8 (confirmed): a transport error on the initial GET appends a
structured record (URL, Python exception class name, message) to the
run-wide error list, commits no per-URL entry, does not `break`, and the
loop continues with the next queued URL. -/
theorem c8_transport_error (classify : Headers → String) (sc : UrlScript)
    (url0 : String) (st : Stats) (e : TransportErr)
    (rest : List (String × UrlScript))
    (hf : sc.fetch1 = FetchOutcome.fail e) :
    (processUrl classify sc url0 st).stats =
      { st with errors := st.errors ++
          [{ url := url0, type := e.kind.pyName, error := e.msg }] } ∧
    (processUrl classify sc url0 st).stats.URLs = st.URLs ∧
    (processUrl classify sc url0 st).broke = false ∧
    runLoop classify ((url0, sc) :: rest) st =
      runLoop classify rest
        { st with errors := st.errors ++
            [{ url := url0, type := e.kind.pyName, error := e.msg }] } := by
  have h1 : processUrl classify sc url0 st =
      { stats := addError st url0 e.kind.pyName e.msg,
        events := [Event.get url0],
        temporalChanging := none, bustChanging := none, broke := false } := by
    unfold processUrl
    rw [hf]
  refine ⟨?_, ?_, ?_, ?_⟩
  · rw [h1]
    rfl
  · rw [h1]
    rfl
  · rw [h1]
  · have hL : runLoop classify ((url0, sc) :: rest) st =
        (if (processUrl classify sc url0 st).broke = true
         then (processUrl classify sc url0 st).stats
         else runLoop classify rest (processUrl classify sc url0 st).stats) := rfl
    rw [hL, h1]
    simp [addError]

/-- C8 witness: a concrete read-timeout on the initial GET. -/
theorem c8_witness :
    (processUrl classifyX scriptE urlD (initStats "example.com")).stats =
      { initStats "example.com" with errors :=
          [{ url := urlD, type := "ReadTimeout", error := "timed out" }] } ∧
    (processUrl classifyX scriptE urlD (initStats "example.com")).stats.URLs
      = (initStats "example.com").URLs ∧
    (processUrl classifyX scriptE urlD (initStats "example.com")).broke = false ∧
    runLoop classifyX [(urlD, scriptE)] (initStats "example.com") =
      runLoop classifyX []
        { initStats "example.com" with errors :=
            [{ url := urlD, type := "ReadTimeout", error := "timed out" }] } :=
  c8_transport_error classifyX scriptE urlD (initStats "example.com")
    { kind := TransportKind.readTimeout, msg := "timed out" } [] rfl

/-- C6 counterexample: in the scenario-C run the first GET of the URL
occurs strictly BEFORE its `add_to_visited` call, so no `addVisited`
precedes the first `get` of that URL in the trace. -/
theorem c6_counterexample :
    addVisitedBeforeFirstGet
      (processUrl classifyX scriptC urlC (initStats "example.com")).events
      urlC = false := by
  decide

/-- C6 (amended): whenever the initial GET of a URL succeeds, the event
trace starts with that GET immediately followed by the
`add_to_visited` call — the URL is marked visited right AFTER the first
network contact, not before it. -/
theorem c6_visited_after_get (classify : Headers → String) (sc : UrlScript)
    (url0 : String) (st : Stats) (r1 : Response)
    (hf : sc.fetch1 = FetchOutcome.ok r1) :
    (processUrl classify sc url0 st).events.take 2 =
      [Event.get url0, Event.addVisited url0] :=
  processUrl_events_take2 classify sc url0 st r1 hf

/-- C6 witness: the amended ordering on the scenario-C run. -/
theorem c6_witness :
    (processUrl classifyX scriptC urlC (initStats "example.com")).events.take 2 =
      [Event.get urlC, Event.addVisited urlC] :=
  c6_visited_after_get classifyX scriptC urlC (initStats "example.com")
    (respOf urlC [("x-cache", "HIT"), ("Date", "D1")]) rfl

/-- C5 counterexample: the confirmation response of `scriptB2` carries
a `Date` header, yet the run abandons at the DateProbe `Date` guard
with an empty `date` list (and no `cache` key): DateProbe did NOT use
the confirmation response — its guard read the first response's
headers, which have no `Date`. -/
theorem c5_counterexample :
    (processUrl classifyX scriptB2 urlB (initStats "example.com")).stats.URLs =
      [(urlB, [("cache_status", StatVal.str "HIT"),
               ("date", StatVal.strList [])])] ∧
    getHeader scriptB2.confirmB.headers "Date" = some "B" ∧
    (processUrl classifyX scriptB2 urlB (initStats "example.com")).broke
      = true := by
  refine ⟨?_, ?_, ?_⟩ <;> decide

/-- C5 (amended): when the first classification yields `MISS`, the
orchestrator sleeps 1 s, re-fetches, sleeps 2 s, re-fetches; the result
is independent of the first (discarded) confirmation response; if the
second confirmation classifies `HIT` the protocol proceeds to DateProbe
recording the confirmation verdict as the entry's `cache_status` — but
DateProbe operates on the FIRST response's headers (the line-323 guard
never fires), so in particular its `Date` guard consults the first
response; otherwise the URL is abandoned with no per-URL entry and no
`break`. -/
theorem c5_confirm_miss (classify : Headers → String) (sc : UrlScript)
    (url0 : String) (st : Stats) (r1 : Response)
    (hf : sc.fetch1 = FetchOutcome.ok r1) (hu : r1.url = url0)
    (hc : classify r1.headers = "MISS") :
    ((processUrl classify sc url0 st).events.take 6 =
      [Event.get url0, Event.addVisited url0, Event.sleepMs 1000,
       Event.get url0, Event.sleepMs 2000, Event.get url0]) ∧
    (∀ x, processUrl classify { sc with confirmA := x } url0 st =
       processUrl classify sc url0 st) ∧
    (classify sc.confirmB.headers = "HIT" →
       processUrl classify sc url0 st =
         afterCached sc url0 r1 (some sc.confirmB)
           (classify sc.confirmB.headers) { st with cache_headers := true }
           [Event.get url0, Event.addVisited url0, Event.sleepMs 1000,
            Event.get url0, Event.sleepMs 2000, Event.get url0]) ∧
    (classify sc.confirmB.headers = "HIT" →
       getHeader r1.headers "Date" = none →
       (processUrl classify sc url0 st).stats.URLs =
         setAssoc st.URLs url0
           [("cache_status", StatVal.str "HIT"),
            ("date", StatVal.strList [])] ∧
       (processUrl classify sc url0 st).broke = true) ∧
    (classify sc.confirmB.headers ≠ "HIT" →
       (processUrl classify sc url0 st).stats.URLs = st.URLs ∧
       (processUrl classify sc url0 st).broke = false) := by
  have hbne : (r1.url != url0) = false := by rw [hu]; simp
  have hch : (classify r1.headers == "HIT") = false := by rw [hc]; decide
  have hcm : (classify r1.headers == "MISS") = true := by rw [hc]; decide
  have hcd : (classify r1.headers != "-") = true := by rw [hc]; decide
  refine ⟨?_, ?_, ?_, ?_, ?_⟩
  · unfold processUrl
    rw [hf]
    dsimp only
    rw [hbne]
    simp only [hch, hcm, hcd, if_true, if_false, Bool.true_eq_false,
      Bool.false_eq_true, List.cons_append, List.nil_append]
    split
    · apply afterCached_events_take6
    · rfl
  · intro x
    rfl
  · intro h2
    have hc2h : (classify sc.confirmB.headers == "HIT") = true := by
      rw [h2]; decide
    have hc2d : (classify sc.confirmB.headers != "-") = true := by
      rw [h2]; decide
    unfold processUrl
    rw [hf]
    dsimp only
    rw [hbne]
    simp only [hch, hcm, hcd, hc2h, hc2d, if_true, if_false,
      Bool.true_eq_false, Bool.false_eq_true, List.append_assoc,
      List.cons_append, List.nil_append]
  · intro h2 hdn
    have hc2h : (classify sc.confirmB.headers == "HIT") = true := by
      rw [h2]; decide
    have hc2d : (classify sc.confirmB.headers != "-") = true := by
      rw [h2]; decide
    unfold processUrl
    rw [hf]
    dsimp only
    rw [hbne]
    simp only [hch, hcm, hcd, hc2h, hc2d, if_true, if_false,
      Bool.true_eq_false, Bool.false_eq_true]
    unfold afterCached
    dsimp only
    rw [entryHeaders_eq_first, hdn, h2]
    exact ⟨rfl, rfl⟩
  · intro h2
    have hc2h : (classify sc.confirmB.headers == "HIT") = false :=
      beq_eq_false_iff_ne.mpr h2
    unfold processUrl
    rw [hf]
    dsimp only
    rw [hbne]
    simp only [hch, hcm, hcd, hc2h, if_true, if_false,
      Bool.true_eq_false, Bool.false_eq_true]
    constructor
    · split <;> rfl
    · trivial

/-- C5 witness: the MISS-then-HIT run of `scriptB`, with the classifier
hypotheses discharged concretely. -/
theorem c5_witness :
    classifyX (respOf urlB [("x-cache", "MISS"), ("Date", "A")]).headers
      = "MISS" ∧
    (processUrl classifyX scriptB urlB (initStats "example.com")).events.take 6 =
      [Event.get urlB, Event.addVisited urlB, Event.sleepMs 1000,
       Event.get urlB, Event.sleepMs 2000, Event.get urlB] :=
  ⟨by decide,
   (c5_confirm_miss classifyX scriptB urlB (initStats "example.com")
     (respOf urlB [("x-cache", "MISS"), ("Date", "A")]) rfl rfl
     (by decide)).1⟩

/-- C7 counterexample: a `HIT`-classified response with no `Date`
header — the run abandons DateProbe, yet the partial entry
`{cache_status: HIT, date: []}` (committed at line 317, before the
line-342 `Date` guard) remains in the statistics. -/
theorem c7_counterexample :
    (processUrl classifyX scriptD urlD (initStats "example.com")).stats.URLs =
      [(urlD, [("cache_status", StatVal.str "HIT"),
               ("date", StatVal.strList [])])] ∧
    (processUrl classifyX scriptD urlD (initStats "example.com")).broke = true := by
  refine ⟨?_, ?_⟩ <;> decide

/-- C7 (amended): the per-URL entry is committed at the START of
DateProbe, before the `Date` check: when the response entering
DateProbe lacks a `Date` header, the partial entry
`{cache_status, date: []}` is left committed in the statistics (and the
loop still `break`s). -/
theorem c7_partial_entry (classify : Headers → String) (sc : UrlScript)
    (url0 : String) (st : Stats) (r1 : Response)
    (hf : sc.fetch1 = FetchOutcome.ok r1) (hu : r1.url = url0)
    (hc : classify r1.headers = "HIT")
    (hd : getHeader r1.headers "Date" = none) :
    (processUrl classify sc url0 st).stats.URLs =
      setAssoc st.URLs url0
        [("cache_status", StatVal.str "HIT"), ("date", StatVal.strList [])] ∧
    (processUrl classify sc url0 st).broke = true := by
  have hbne : (r1.url != url0) = false := by rw [hu]; simp
  have hch : (classify r1.headers == "HIT") = true := by rw [hc]; decide
  have hcd : (classify r1.headers != "-") = true := by rw [hc]; decide
  unfold processUrl
  rw [hf]
  dsimp only
  rw [hbne]
  simp only [hch, hcd, if_true, if_false, Bool.false_eq_true]
  unfold afterCached
  dsimp only
  rw [entryHeaders_eq_first, hd, hc]
  exact ⟨rfl, rfl⟩

/-- C7 witness: the amended statement on the concrete no-`Date` run. -/
theorem c7_witness :
    getHeader (respOf urlD [("x-cache", "HIT")]).headers "Date" = none ∧
    (processUrl classifyX scriptD urlD (initStats "example.com")).stats.URLs =
      setAssoc (initStats "example.com").URLs urlD
        [("cache_status", StatVal.str "HIT"), ("date", StatVal.strList [])] :=
  ⟨by decide,
   (c7_partial_entry classifyX scriptD urlD (initStats "example.com")
     (respOf urlD [("x-cache", "HIT")]) rfl rfl (by decide) (by decide)).1⟩

/-- C1 counterexample: the scenario-C run (baseline D1, temporal D1,
cache-busted D2 ≠ D1) reaches CacheBustProbe and computes "changing
after cache busting", but the committed per-URL statistics entry
contains no boolean value at all — in particular no "cache-busting
defeats cache" boolean set to `true`; only the `date` list records
D2. -/
theorem c1_counterexample :
    (processUrl classifyX scriptC urlC (initStats "example.com")).bustChanging
      = some true ∧
    (processUrl classifyX scriptC urlC (initStats "example.com")).stats.URLs =
      [(urlC, [("cache_status", StatVal.str "HIT"),
               ("date", StatVal.strList ["D1", "D1", "D2"]),
               ("cache", StatVal.strList [])])] ∧
    ((processUrl classifyX scriptC urlC (initStats "example.com")).stats.URLs.all
      fun kv => !(hasBoolTrue kv.2)) = true := by
  refine ⟨?_, ?_, ?_⟩ <;> decide

/-- C1 (amended): in the scenario-C situation the run logs
`temporalChanging = false` and `bustChanging = true`, and the per-URL
entry records the busted `Date` as the third element of its `date`
list — but the committed entry holds only `cache_status`, `date` and
`cache`, and no boolean "cache-busting defeats cache" field is stored
in the statistics. -/
theorem c1_bust_recorded (classify : Headers → String) (sc : UrlScript)
    (url0 : String) (st : Stats) (r1 : Response) (d1 d3 : String)
    (hf : sc.fetch1 = FetchOutcome.ok r1) (hu : r1.url = url0)
    (hc : classify r1.headers = "HIT")
    (h1 : getHeader r1.headers "Date" = some d1)
    (h2 : getHeader sc.temporal.headers "Date" = some d1)
    (h3 : getHeader sc.bust.headers "Date" = some d3)
    (hne : d1 ≠ d3) :
    (processUrl classify sc url0 st).temporalChanging = some false ∧
    (processUrl classify sc url0 st).bustChanging = some true ∧
    (processUrl classify sc url0 st).stats.URLs =
      setAssoc st.URLs url0
        [("cache_status", StatVal.str "HIT"),
         ("date", StatVal.strList [d1, d1, d3]),
         ("cache", StatVal.strList (identify r1.headers))] ∧
    hasBoolTrue
      [("cache_status", StatVal.str "HIT"),
       ("date", StatVal.strList [d1, d1, d3]),
       ("cache", StatVal.strList (identify r1.headers))] = false := by
  have hbne : (r1.url != url0) = false := by rw [hu]; simp
  have hch : (classify r1.headers == "HIT") = true := by rw [hc]; decide
  have hcd : (classify r1.headers != "-") = true := by rw [hc]; decide
  have htc : (d1 != d1) = false := by simp
  have hbc : (d1 != d3) = true := bne_iff_ne.mpr hne
  unfold processUrl
  rw [hf]
  dsimp only
  rw [hbne]
  simp only [hch, hcd, if_true, if_false, Bool.false_eq_true]
  unfold afterCached
  dsimp only
  rw [entryHeaders_eq_first, h1, h2, h3, hc]
  dsimp only
  rw [htc, hbc]
  refine ⟨rfl, rfl, ?_, ?_⟩
  · simp [commitUrl, setAssoc, appendDate]
  · simp [hasBoolTrue]

/-- C1 witness: the amended statement on the concrete scenario-C run. -/
theorem c1_witness :
    "D1" ≠ "D2" ∧
    (processUrl classifyX scriptC urlC (initStats "example.com")).bustChanging
      = some true :=
  ⟨by decide,
   (c1_bust_recorded classifyX scriptC urlC (initStats "example.com")
     (respOf urlC [("x-cache", "HIT"), ("Date", "D1")]) "D1" "D2" rfl rfl
     (by decide) (by decide) (by decide) (by decide) (by decide)).2.1⟩

/-- C10 (confirmed): when a URL reaches TemporalCheck (directly via
`HIT`, or via the MISS-confirmation path) and the TemporalCheck
re-fetch carries no `Date` header, no cache-busted request is issued
(the trace contains no `getBust` event) and the committed `date` list
holds only the single DateProbe baseline value — which, in both paths,
is the first response's `Date`, `response_headers` being the first
response's headers throughout DateProbe. -/
theorem c10_no_bust (classify : Headers → String) (sc : UrlScript)
    (url0 : String) (st : Stats) (r1 : Response) (d1 : String)
    (hf : sc.fetch1 = FetchOutcome.ok r1) (hu : r1.url = url0)
    (hpath : classify r1.headers = "HIT" ∨
      (classify r1.headers = "MISS" ∧ classify sc.confirmB.headers = "HIT"))
    (hd1 : getHeader r1.headers "Date" = some d1)
    (ht : getHeader sc.temporal.headers "Date" = none) :
    ((processUrl classify sc url0 st).events.all fun e => !(isBust e)) = true ∧
    (processUrl classify sc url0 st).stats.URLs =
      setAssoc st.URLs url0
        [("cache_status", StatVal.str "HIT"),
         ("date", StatVal.strList [d1]),
         ("cache", StatVal.strList (identify r1.headers))] := by
  have hbne : (r1.url != url0) = false := by rw [hu]; simp
  rcases hpath with hc | ⟨hc, hc2⟩
  · have hch : (classify r1.headers == "HIT") = true := by rw [hc]; decide
    have hcd : (classify r1.headers != "-") = true := by rw [hc]; decide
    unfold processUrl
    rw [hf]
    dsimp only
    rw [hbne]
    simp only [hch, hcd, if_true, if_false, Bool.false_eq_true]
    unfold afterCached
    dsimp only
    rw [entryHeaders_eq_first, hd1, ht, hc]
    refine ⟨?_, ?_⟩
    · simp [isBust]
    · simp [commitUrl, setAssoc, appendDate]
  · have hch : (classify r1.headers == "HIT") = false := by rw [hc]; decide
    have hcm : (classify r1.headers == "MISS") = true := by rw [hc]; decide
    have hcd : (classify r1.headers != "-") = true := by rw [hc]; decide
    have hc2h : (classify sc.confirmB.headers == "HIT") = true := by
      rw [hc2]; decide
    have hc2d : (classify sc.confirmB.headers != "-") = true := by
      rw [hc2]; decide
    unfold processUrl
    rw [hf]
    dsimp only
    rw [hbne]
    simp only [hch, hcm, hcd, hc2h, hc2d, if_true, if_false,
      Bool.true_eq_false, Bool.false_eq_true]
    unfold afterCached
    dsimp only
    rw [entryHeaders_eq_first, hd1, ht, hc2]
    refine ⟨?_, ?_⟩
    · simp [isBust]
    · simp [commitUrl, setAssoc, appendDate]

/-- C10 witness: a MISS-confirmation run whose TemporalCheck response
has no `Date` header. -/
theorem c10_witness :
    getHeader scriptG.temporal.headers "Date" = none ∧
    ((processUrl classifyX scriptG urlD (initStats "example.com")).events.all
      fun e => !(isBust e)) = true :=
  ⟨by decide,
   (c10_no_bust classifyX scriptG urlD (initStats "example.com")
     (respOf urlD [("x-cache", "MISS"), ("Date", "D1")]) "D1"
     rfl rfl (Or.inr ⟨by decide, by decide⟩) (by decide) (by decide)).1⟩

/-- C2 counterexample: a MISS-confirmation run whose first response
carries `Date` "A" and whose confirmation response carries `Date` "B".
The recorded DateProbe baseline is "A" — the FIRST response's `Date`,
not the confirmation response's — and TemporalCheck reports changing
("A" vs "B") even though the confirmation response's `Date` equals the
re-fetched one: the line-323 guard that would select the confirmation
response tests the key `response2` while line 291 writes `request2`,
so DateProbe is never entered with the confirmation response. -/
theorem c2_counterexample :
    (processUrl classifyX scriptB urlB (initStats "example.com")).stats.URLs =
      [(urlB, [("cache_status", StatVal.str "HIT"),
               ("date", StatVal.strList ["A", "B", "B"]),
               ("cache", StatVal.strList [])])] ∧
    (processUrl classifyX scriptB urlB (initStats "example.com")).temporalChanging
      = some true ∧
    getHeader scriptB.confirmB.headers "Date" = some "B" ∧
    getHeader scriptB.temporal.headers "Date" = some "B" := by
  refine ⟨?_, ?_, ?_, ?_⟩ <;> decide

/-- C2 (amended): for every URL that reaches TemporalCheck, the value
compared against the re-fetched `Date` (line 366) IS the initial `Date`
recorded at DateProbe (line 349) — but that initial value is always the
FIRST response's `Date`, also when the first classification was MISS,
because the line-323 guard never fires; the CacheBustProbe comparison
(line 392) uses the same baseline. -/
theorem c2_baseline_is_first_fetch (classify : Headers → String)
    (sc : UrlScript) (url0 : String) (st : Stats) (r1 : Response)
    (d1 d2 d3 : String)
    (hf : sc.fetch1 = FetchOutcome.ok r1) (hu : r1.url = url0)
    (hpath : classify r1.headers = "HIT" ∨
      (classify r1.headers = "MISS" ∧ classify sc.confirmB.headers = "HIT"))
    (h1 : getHeader r1.headers "Date" = some d1)
    (h2 : getHeader sc.temporal.headers "Date" = some d2)
    (h3 : getHeader sc.bust.headers "Date" = some d3) :
    (processUrl classify sc url0 st).temporalChanging = some (d1 != d2) ∧
    (processUrl classify sc url0 st).bustChanging = some (d1 != d3) ∧
    (processUrl classify sc url0 st).stats.URLs =
      setAssoc st.URLs url0
        [("cache_status", StatVal.str "HIT"),
         ("date", StatVal.strList [d1, d2, d3]),
         ("cache", StatVal.strList (identify r1.headers))] := by
  have hbne : (r1.url != url0) = false := by rw [hu]; simp
  rcases hpath with hc | ⟨hc, hc2⟩
  · have hch : (classify r1.headers == "HIT") = true := by rw [hc]; decide
    have hcd : (classify r1.headers != "-") = true := by rw [hc]; decide
    unfold processUrl
    rw [hf]
    dsimp only
    rw [hbne]
    simp only [hch, hcd, if_true, if_false, Bool.false_eq_true]
    unfold afterCached
    dsimp only
    rw [entryHeaders_eq_first, h1, h2, h3, hc]
    dsimp only
    refine ⟨rfl, rfl, ?_⟩
    simp [commitUrl, setAssoc, appendDate]
  · have hch : (classify r1.headers == "HIT") = false := by rw [hc]; decide
    have hcm : (classify r1.headers == "MISS") = true := by rw [hc]; decide
    have hcd : (classify r1.headers != "-") = true := by rw [hc]; decide
    have hc2h : (classify sc.confirmB.headers == "HIT") = true := by
      rw [hc2]; decide
    have hc2d : (classify sc.confirmB.headers != "-") = true := by
      rw [hc2]; decide
    unfold processUrl
    rw [hf]
    dsimp only
    rw [hbne]
    simp only [hch, hcm, hcd, hc2h, hc2d, if_true, if_false,
      Bool.true_eq_false, Bool.false_eq_true]
    unfold afterCached
    dsimp only
    rw [entryHeaders_eq_first, h1, h2, h3, hc2]
    dsimp only
    refine ⟨rfl, rfl, ?_⟩
    simp [commitUrl, setAssoc, appendDate]

/-- C2 witness: the amended statement on the concrete MISS-confirmation
run of `scriptB`, whose first response carries `Date` "A". -/
theorem c2_witness :
    getHeader (respOf urlB [("x-cache", "MISS"), ("Date", "A")]).headers "Date"
      = some "A" ∧
    (processUrl classifyX scriptB urlB (initStats "example.com")).temporalChanging
      = some ("A" != "B") :=
  ⟨by decide,
   (c2_baseline_is_first_fetch classifyX scriptB urlB (initStats "example.com")
     (respOf urlB [("x-cache", "MISS"), ("Date", "A")]) "A" "B" "B"
     rfl rfl (Or.inr ⟨by decide, by decide⟩) (by decide) (by decide)
     (by decide)).1⟩

end WCD

